import Mathlib

/-!
Verification of the lead-scoring service (feature encoder, model adapter,
prediction orchestrator, fan-out sinks) against its design document.

The embedding follows the Python sources:
  app/models/schemas.py    (pydantic data model and field validation)
  app/models/predictor.py  (feature preparation, categorical encoding,
                            batch prediction, model loading)
  app/api/v1/endpoints/scoring.py (orchestration endpoint)
  app/core/data_lake.py    (data-lake fan-out sink)
  app/core/constants.py    (numeric constants)

Machine floats are modelled by rationals, timestamps by integer POSIX
seconds, pandas DataFrames by lists of rows (the source builds the frame
from per-lead column lists, so row i is a function of lead i alone), and
exceptions by Except / Option results.
-/

namespace LeadScoring

/-- From app/core/constants.py line 55. -/
def DEFAULT_DAYS_SINCE_INTERACTION : ℤ := 999

/-- From app/core/constants.py line 54. -/
def MOCK_CONFIDENCE_VALUE : ℚ := 4/5

/-- Embedded from app/models/schemas.py, class LeadFeatures: every field is
optional; numeric bounds are enforced by pydantic upstream of the encoder.
The custom-feature dict is modelled as an association list. -/
structure LeadFeatures where
  company_size : Option String := none
  industry : Option String := none
  job_title : Option String := none
  seniority_level : Option String := none
  geography : Option String := none
  email_engagement_score : Option ℚ := none
  website_sessions : Option ℕ := none
  pages_viewed : Option ℕ := none
  time_on_site : Option ℚ := none
  form_fills : Option ℕ := none
  content_downloads : Option ℕ := none
  campaign_touchpoints : Option ℕ := none
  last_campaign_interaction : Option ℤ := none
  account_revenue : Option ℚ := none
  account_employees : Option ℕ := none
  existing_customer : Option Bool := none
  custom_features : Option (List (String × ℚ)) := none
deriving DecidableEq

/-- Modelled from the spec: the categorical known-value lists
(COMPANY_SIZES, INDUSTRIES, JOB_TITLES, SENIORITY_LEVELS, GEOGRAPHIES) are
imported by app/models/predictor.py from app/core/constants.py, but the
copy of constants.py in this snapshot does not define them; the spec calls
them "categorical mapping tables" and the encoder is parametric in them,
so they are carried as abstract parameters. -/
structure CategoryLists where
  company_sizes : List String
  industries : List String
  job_titles : List String
  seniority_levels : List String
  geographies : List String
deriving DecidableEq

/-- Model of Python list.index wrapped in try/except: the 0-based position
of the first element equal to the needle, none when no element matches. -/
def list_index : List String → String → Option ℕ
  | [], _ => none
  | c :: cs, s => if c = s then some 0 else (list_index cs s).map (· + 1)

/-- Embedded from _encode_categorical (app/models/predictor.py lines
219-226).  The Python guard is `if not value`, which is taken both for
None and for the empty string (str falsiness); a found value encodes to
first-index + 1, and the ValueError from a failed list.index is caught and
mapped to length + 1. -/
def encode_categorical (value : Option String) (categories : List String) : ℕ :=
  match value with
  | none => 0
  | some s =>
    if s = "" then 0
    else
      match list_index categories s with
      | some i => i + 1
      | none => categories.length + 1

/-- Whole-day difference of two POSIX-second timestamps, the model of
`(now - pd.Timestamp(x)).days` (floor division, as for datetime
timedeltas). -/
def days_between (now ts : ℤ) : ℤ := (now - ts).fdiv 86400

/-- Embedded from app/models/predictor.py lines 191-198: the derived
"days since last interaction" feature of one lead.  A datetime object is
always truthy in Python, so the guard is exactly presence of the field. -/
def days_since_feature (now : ℤ) (lead : LeadFeatures) : ℤ :=
  match lead.last_campaign_interaction with
  | some ts => max 0 (days_between now ts)
  | none => DEFAULT_DAYS_SINCE_INTERACTION

/-- First-match lookup with default, the model of dict.get(k, d) on the
association-list encoding of a dict. -/
def lookupD (row : List (String × ℚ)) (k : String) (d : ℚ) : ℚ :=
  match row.find? (fun p => p.1 == k) with
  | some p => p.2
  | none => d

/-- Embedded from app/models/predictor.py line 204:
`lead.custom_features.get(key, 0.0) if lead.custom_features else 0.0`
(an absent or empty dict and a missing key all give 0.0). -/
def custom_feature_value (lead : LeadFeatures) (key : String) : ℚ :=
  match lead.custom_features with
  | some m => lookupD m key 0
  | none => 0

/-- The 34 custom-feature column names of app/models/predictor.py lines
201-206 (`custom_feature_1` .. `custom_feature_34`). -/
def custom_keys : List String :=
  (List.range 34).map (fun i => "custom_feature_" ++ toString (i + 1))

/-- Embedded from the data dict of _prepare_features (app/models/predictor.py
lines 146-198): the named base features of one lead.  Python `x or 0`
returns 0 both for None and for a zero value, which coincides with
Option.getD 0 on the numeric fields; `1 if lead.existing_customer else 0`
maps None and false to 0. -/
def base_row (cl : CategoryLists) (now : ℤ) (lead : LeadFeatures) : List (String × ℚ) :=
  [ ("company_size_encoded", (encode_categorical lead.company_size cl.company_sizes : ℚ)),
    ("industry_encoded", (encode_categorical lead.industry cl.industries : ℚ)),
    ("job_title_encoded", (encode_categorical lead.job_title cl.job_titles : ℚ)),
    ("seniority_level_encoded", (encode_categorical lead.seniority_level cl.seniority_levels : ℚ)),
    ("geography_encoded", (encode_categorical lead.geography cl.geographies : ℚ)),
    ("email_engagement_score", lead.email_engagement_score.getD 0),
    ("website_sessions", (lead.website_sessions.getD 0 : ℚ)),
    ("pages_viewed", (lead.pages_viewed.getD 0 : ℚ)),
    ("time_on_site", lead.time_on_site.getD 0),
    ("form_fills", (lead.form_fills.getD 0 : ℚ)),
    ("content_downloads", (lead.content_downloads.getD 0 : ℚ)),
    ("campaign_touchpoints", (lead.campaign_touchpoints.getD 0 : ℚ)),
    ("account_revenue", lead.account_revenue.getD 0),
    ("account_employees", (lead.account_employees.getD 0 : ℚ)),
    ("existing_customer_encoded", if lead.existing_customer.getD false then 1 else 0),
    ("days_since_last_interaction", (days_since_feature now lead : ℚ)) ]

/-- One lead's full named feature row: the base features plus the 34
custom features (app/models/predictor.py lines 146-209). -/
def prepare_row (cl : CategoryLists) (now : ℤ) (lead : LeadFeatures) : List (String × ℚ) :=
  base_row cl now lead ++ custom_keys.map (fun k => (k, custom_feature_value lead k))

/-- Embedded from app/models/predictor.py lines 211-216: for each column
of the loaded feature schema take the value of the prepared row, with 0.0
for a column the row does not carry (`df[col] = 0.0` then
`df[self.feature_columns]`). -/
def select_columns (cols : List String) (row : List (String × ℚ)) : List ℚ :=
  cols.map (fun c => lookupD row c 0)

/-- One lead's numeric feature vector, after column selection when a
feature schema is loaded (app/models/predictor.py lines 211-217). -/
def encode_lead (cl : CategoryLists) (fc : Option (List String)) (now : ℤ)
    (lead : LeadFeatures) : List ℚ :=
  match fc with
  | some cols => select_columns cols (prepare_row cl now lead)
  | none => (prepare_row cl now lead).map Prod.snd

/-- Embedded from _prepare_features (app/models/predictor.py lines
135-217).  The source builds one length-N list per column and a DataFrame
from the dict of columns, so the frame has exactly one row per lead and
row i depends on lead i alone; the frame is modelled row-wise. -/
def prepare_features (cl : CategoryLists) (fc : Option (List String)) (now : ℤ)
    (leads : List LeadFeatures) : List (List ℚ) :=
  leads.map (encode_lead cl fc now)

/-- The loaded machine-learning model, abstractly: a batch predict map
from a feature matrix to one raw label per row, and an optional per-class
probability capability (the source probes it with hasattr, spec 4.2 calls
it capability-dependent).  Any concrete sklearn or XGBoost classifier
instantiates this interface. -/
structure MLModel where
  predict : List (List ℚ) → List ℤ
  predict_proba : Option (List (List ℚ) → List (List ℚ))

/-- Embedded from LeadScoringPredictor state (app/models/predictor.py
lines 38-44): the loaded model, the feature schema, the version tag. -/
structure Predictor where
  model : Option MLModel
  feature_columns : Option (List String)
  model_version : String

/-- Embedded from is_loaded (app/models/predictor.py lines 294-296). -/
def is_loaded (p : Predictor) : Bool := p.model.isSome

/-- np.clip(v, 1, 5) on an integer label. -/
def clip15 (v : ℤ) : ℤ := max 1 (min 5 v)

/-- Embedded from _predict_sync (app/models/predictor.py lines 283-292):
raise when no model is loaded, otherwise predict and clip every raw label
into [1, 5]. -/
def predict_sync (p : Predictor) (X : List (List ℚ)) : Except String (List ℤ) :=
  match p.model with
  | none => Except.error "Model is not loaded"
  | some m => Except.ok ((m.predict X).map clip15)

/-- Python max over one probability row: none on an empty row (max of an
empty sequence raises). -/
def rowMax : List ℚ → Option ℚ
  | [] => none
  | x :: xs => some (xs.foldl max x)

/-- The per-row confidences `[max(proba) for proba in probabilities]`
(app/models/predictor.py line 247); an empty row propagates the raised
ValueError. -/
def confidences_of : List (List ℚ) → Option (List ℚ)
  | [] => some []
  | r :: rs => do
    let m ← rowMax r
    let rest ← confidences_of rs
    pure (m :: rest)

/-- Embedded from the pydantic LeadScore model (app/models/schemas.py
lines 80-88): score bounded to [1, 5] and confidence to [0, 1] by field
validation. -/
structure LeadScore where
  score : ℤ
  confidence : ℚ
  features_used : ℕ
  prediction_time_ms : ℚ
deriving DecidableEq

/-- Construction of a LeadScore through pydantic field validation: out of
bounds values raise a ValidationError instead of producing a value. -/
def mkLeadScore (score : ℤ) (confidence : ℚ) (fu : ℕ) (t : ℚ) : Option LeadScore :=
  if 1 ≤ score ∧ score ≤ 5 ∧ 0 ≤ confidence ∧ confidence ≤ 1 then
    some ⟨score, confidence, fu, t⟩
  else none

/-- Embedded from the result loop of predict_batch (app/models/predictor.py
lines 256-268): zip(predictions, confidences, strict=False) stops at the
shorter list, and each LeadScore construction is validated. -/
def build_results (fu : ℕ) (t : ℚ) : List ℤ → List ℚ → Option (List LeadScore)
  | p :: ps, c :: cs => do
    let s ← mkLeadScore p c fu t
    let rest ← build_results fu t ps cs
    pure (s :: rest)
  | _, _ => some []

/-- Embedded from predict_batch (app/models/predictor.py lines 228-277).
Wall-clock time is abstracted by the parameter t (the measured batch
processing time in milliseconds); the per-lead time is the even split
t / number of predictions, evaluated only inside the result loop.  The
capability branch `if self.model and hasattr(self.model, "predict_proba")`
selects row maxima of predict_proba when the capability is present and the
fixed fallback constant otherwise; any raised error (no model, empty
probability row, failed validation) is re-raised to the caller. -/
def predict_batch (cl : CategoryLists) (p : Predictor) (now : ℤ) (t : ℚ)
    (leads : List LeadFeatures) : Except String (List LeadScore) :=
  let X := prepare_features cl p.feature_columns now leads
  match predict_sync p X with
  | Except.error e => Except.error e
  | Except.ok preds =>
    let confr : Except String (List ℚ) :=
      match p.model with
      | some m =>
        match m.predict_proba with
        | some f =>
          match confidences_of (f X) with
          | some cs => Except.ok cs
          | none => Except.error "max of empty probability row"
        | none => Except.ok (List.replicate preds.length MOCK_CONFIDENCE_VALUE)
      | none => Except.ok (List.replicate preds.length MOCK_CONFIDENCE_VALUE)
    match confr with
    | Except.error e => Except.error e
    | Except.ok confs =>
      let fu := (p.feature_columns.map List.length).getD 0
      match build_results fu (t / (preds.length : ℚ)) preds confs with
      | some results => Except.ok results
      | none => Except.error "LeadScore validation error"

/-- Embedded from the pydantic ScoreRequest model (app/models/schemas.py
lines 63-77): a request id and an ordered lead list. -/
structure ScoreRequest where
  request_id : String
  leads : List LeadFeatures
deriving DecidableEq

/-- An HTTP error outcome: status code and detail string. -/
structure ApiError where
  status : ℕ
  detail : String
deriving DecidableEq

/-- Embedded from ScoreRequest validation (app/models/schemas.py lines
69-77): the Field bounds min_length=1 and max_length=500 reject as a 422
schema-validation failure before the endpoint body runs; the extra
validate_leads validator repeats the upper bound. -/
def validate_score_request (request_id : String) (leads : List LeadFeatures) :
    Except ApiError ScoreRequest :=
  if leads.length < 1 then
    Except.error ⟨422, "List should have at least 1 item"⟩
  else if leads.length > 500 then
    Except.error ⟨422, "List should have at most 500 items"⟩
  else
    Except.ok ⟨request_id, leads⟩

/-- Embedded from the pydantic ScoreResponse model (app/models/schemas.py
lines 91-104). -/
structure ScoreResponse where
  request_id : String
  total_leads : ℕ
  processing_time_ms : ℚ
  scores : List LeadScore
  model_version : String
  status : String
deriving DecidableEq

/-- Embedded from score_leads (app/api/v1/endpoints/scoring.py lines
23-98): 503 when no model is loaded, 400 when over 500 leads, then batch
prediction; any exception after that becomes the generic 500.  In this
snapshot line 56 reads
`scores, engineered_features = await predictor.predict_batch(...)` while
predict_batch (app/models/predictor.py line 277) returns one flat list of
LeadScore: unpacking that list into two targets raises ValueError unless
it has exactly 2 elements, and with exactly 2 elements it binds a single
LeadScore to scores, which the ScoreResponse construction (a list field)
then rejects.  Both failure modes land in the generic except arm, so a
staged request that reaches prediction is always answered 500 and the
success branch building a ScoreResponse is unreachable. -/
def score_leads (cl : CategoryLists) (p : Predictor) (now : ℤ) (t : ℚ)
    (req : ScoreRequest) : Except ApiError ScoreResponse :=
  if is_loaded p = false then
    Except.error ⟨503, "Model not available. Please try again later."⟩
  else if req.leads.length > 500 then
    Except.error ⟨400, "Maximum 500 leads per request"⟩
  else
    match predict_batch cl p now t req.leads with
    | Except.ok results =>
      -- scoring.py line 56: the two-target unpack of the returned list
      if results.length = 2 then
        -- scores is bound to one LeadScore; ScoreResponse validation fails
        Except.error ⟨500, "Internal server error during prediction"⟩
      else
        -- ValueError from the length mismatch
        Except.error ⟨500, "Internal server error during prediction"⟩
    | Except.error _ =>
      Except.error ⟨500, "Internal server error during prediction"⟩

/-- The full inbound path of one scoring request: pydantic schema
validation, then the endpoint body. -/
def handle_score_request (cl : CategoryLists) (p : Predictor) (now : ℤ) (t : ℚ)
    (request_id : String) (leads : List LeadFeatures) : Except ApiError ScoreResponse :=
  match validate_score_request request_id leads with
  | Except.error e => Except.error e
  | Except.ok req => score_leads cl p now t req

/-- One enriched record of the data-lake batch (app/core/data_lake.py
lines 56-89): request id, the input lead and its prediction fields. -/
structure SinkRecord where
  request_id : String
  lead : LeadFeatures
  score : ℤ
  confidence : ℚ
  features_used : ℕ
deriving DecidableEq

/-- Embedded from the record loop of write_predictions_async
(app/core/data_lake.py lines 56-89): one record per zipped (lead, score)
pair. -/
def build_sink_records (request_id : String) (leads : List LeadFeatures)
    (scores : List LeadScore) : List SinkRecord :=
  (leads.zip scores).map (fun ls =>
    { request_id := request_id
      lead := ls.1
      score := ls.2.score
      confidence := ls.2.confidence
      features_used := ls.2.features_used })

/-- The environment of one fan-out execution: which physical destinations
are configured and whether each underlying write succeeds.  A false write
outcome stands for the raised exception that asyncio.gather
(return_exceptions=True) hands back as a value. -/
structure SinkEnv where
  s3_configured : Bool
  kinesis_configured : Bool
  s3_write_ok : Bool
  kinesis_write_ok : Bool
  buffer_ok : Bool
deriving DecidableEq

/-- Embedded from write_predictions_async (app/core/data_lake.py lines
42-140): build the enriched records, attempt every configured destination
plus the buffer concurrently, collect exceptions as values, and return the
internal boolean signal - false when any destination failed, true when all
succeeded.  The outer try/except also maps any escaping error to false,
so the function is total: it never raises to its caller.  Note that the
staged call site (app/api/v1/endpoints/scoring.py lines 71-79) passes six
arguments to this five-parameter coroutine, so in the staged code the body
is unreachable from score_leads; this is the function as data_lake.py
defines it. -/
def write_predictions_async (env : SinkEnv) (request_id : String)
    (req : ScoreRequest) (scores : List LeadScore) : Bool :=
  let _records := build_sink_records request_id req.leads scores
  let results : List Bool :=
    (if env.s3_configured then [env.s3_write_ok] else []) ++
    (if env.kinesis_configured then [env.kinesis_write_ok] else []) ++
    [env.buffer_ok]
  results.all id

/-- The deserialized model artifact (app/models/predictor.py lines 78-90):
weights, feature schema, version tag. -/
structure ModelData where
  model : MLModel
  feature_columns : List String
  version : String

/-- Installing a fetched artifact on the predictor (app/models/predictor.py
lines 78-80 and 88-90). -/
def apply_artifact (p : Predictor) (d : ModelData) : Predictor :=
  { p with
    model := some d.model
    feature_columns := some d.feature_columns
    model_version := d.version }

/-- The 50 mock feature column names of _load_mock_model
(app/models/predictor.py lines 99-118). -/
def mock_feature_columns : List String :=
  [ "company_size_encoded", "industry_encoded", "job_title_encoded",
    "seniority_level_encoded", "geography_encoded", "email_engagement_score",
    "website_sessions", "pages_viewed", "time_on_site", "form_fills",
    "content_downloads", "campaign_touchpoints", "account_revenue",
    "account_employees", "existing_customer_encoded",
    "days_since_last_interaction" ] ++ custom_keys

/-- Embedded from _load_mock_model (app/models/predictor.py lines 94-133):
install the mock feature schema, a RandomForest trained on random dummy
data (the trained estimator is the parameter mock, its training being
external randomness), and the version tag "mock-1.0.0". -/
def load_mock_model (mock : MLModel) (p : Predictor) : Predictor :=
  { p with
    model := some mock
    feature_columns := some mock_feature_columns
    model_version := "mock-1.0.0" }

/-- Embedded from _load_model (app/models/predictor.py lines 47-65): on a
successful fetch install the artifact; when the S3 fetch, file read or
deserialization raises, the except branch calls _load_mock_model. -/
def load_model (fetch : Except String ModelData) (mock : MLModel) (p : Predictor) :
    Predictor :=
  match fetch with
  | Except.ok d => apply_artifact p d
  | Except.error _ => load_mock_model mock p

/-! Concrete fixtures used by the witness theorems. -/

/-- A concrete category-list instantiation (values as exercised by the
repository test suite). -/
def demo_cl : CategoryLists :=
  { company_sizes := ["Startup", "Small", "Medium", "Large", "Enterprise"]
    industries := ["Technology", "Healthcare"]
    job_titles := ["VP Marketing"]
    seniority_levels := ["Executive"]
    geographies := ["North America"] }

/-- A concrete deterministic model without probability output whose raw
label 7 lies outside [1, 5], exercising the clip. -/
def demo_model : MLModel :=
  { predict := fun X => X.map (fun _ => 7)
    predict_proba := none }

/-- A concrete deterministic model with probability output. -/
def demo_model_proba : MLModel :=
  { predict := fun X => X.map (fun _ => 3)
    predict_proba := some (fun X => X.map (fun _ => [1/10, 9/10])) }

/-- A two-column feature schema for concrete evaluations. -/
def demo_fc : List String := ["days_since_last_interaction", "company_size_encoded"]

/-- A predictor with the two-column schema and the clip-exercising model. -/
def demo_p : Predictor :=
  { model := some demo_model
    feature_columns := some demo_fc
    model_version := "1.0.0" }

/-- A predictor carrying the probability-capable model. -/
def demo_p_proba : Predictor :=
  { model := some demo_model_proba
    feature_columns := some demo_fc
    model_version := "1.0.0" }

/-- A predictor with nothing loaded. -/
def empty_p : Predictor :=
  { model := none, feature_columns := none, model_version := "1.0.0" }

/-- A one-lead request with every field absent. -/
def demo_req : ScoreRequest :=
  { request_id := "r1", leads := [{}] }

/-- A sink environment whose S3 destination is configured and fails. -/
def env_s3_fail : SinkEnv :=
  { s3_configured := true
    kinesis_configured := false
    s3_write_ok := false
    kinesis_write_ok := true
    buffer_ok := true }

/-- A deterministic model that reads the first feature of each row (the
days-since-interaction feature under the day_p schema): label 1 when it is
at most 0, label 2 otherwise. -/
def day_model : MLModel :=
  { predict := fun X => X.map (fun row => if row.headD 0 ≤ 0 then 1 else 2)
    predict_proba := none }

/-- A predictor whose single feature column is the clock-derived
days-since-interaction feature, carrying day_model. -/
def day_p : Predictor :=
  { model := some day_model
    feature_columns := some ["days_since_last_interaction"]
    model_version := "1.0.0" }

/-- A lead whose last campaign interaction is at POSIX second 0. -/
def day_lead : LeadFeatures := { last_campaign_interaction := some 0 }

/-! Helper lemmas. -/

lemma mkLeadScore_some {p : ℤ} {c : ℚ} {fu : ℕ} {t : ℚ} {s : LeadScore}
    (h : mkLeadScore p c fu t = some s) :
    s = ⟨p, c, fu, t⟩ ∧ 1 ≤ p ∧ p ≤ 5 ∧ 0 ≤ c ∧ c ≤ 1 := by
  unfold mkLeadScore at h
  split at h
  · rename_i hcond
    cases h
    exact ⟨rfl, hcond.1, hcond.2.1, hcond.2.2.1, hcond.2.2.2⟩
  · cases h

lemma build_results_spec {fu : ℕ} {t : ℚ} :
    ∀ {ps : List ℤ} {cs : List ℚ} {r : List LeadScore},
      build_results fu t ps cs = some r →
      r.map (fun s => (s.score, s.confidence)) = ps.zip cs ∧
      ∀ s ∈ r, ∃ pc : ℤ × ℚ, mkLeadScore pc.1 pc.2 fu t = some s := by
  intro ps
  induction ps with
  | nil =>
    intro cs r h
    cases cs <;> simp [build_results] at h <;> subst h <;> simp
  | cons p ps ih =>
    intro cs r h
    cases cs with
    | nil =>
      simp [build_results] at h
      subst h
      simp
    | cons c cs =>
      simp only [build_results, Option.bind_eq_bind] at h
      cases hs : mkLeadScore p c fu t with
      | none => rw [hs] at h; cases h
      | some s0 =>
        rw [hs] at h
        cases hb : build_results fu t ps cs with
        | none => rw [hb] at h; cases h
        | some rest =>
          rw [hb] at h
          simp only [Option.some_bind, Option.pure_def, Option.some.injEq] at h
          subst h
          obtain ⟨hzip, hmem⟩ := ih hb
          obtain ⟨hs0, _⟩ := mkLeadScore_some hs
          constructor
          · simp [hzip, hs0]
          · intro s hsmem
            rcases List.mem_cons.mp hsmem with h1 | h2
            · exact ⟨(p, c), h1 ▸ hs⟩
            · exact hmem s h2

lemma confidences_of_spec :
    ∀ {rs : List (List ℚ)} {cs : List ℚ},
      confidences_of rs = some cs →
      cs.length = rs.length ∧
      ∀ i (h1 : i < rs.length) (h2 : i < cs.length),
        rowMax (rs.get ⟨i, h1⟩) = some (cs.get ⟨i, h2⟩) := by
  intro rs
  induction rs with
  | nil =>
    intro cs h
    simp [confidences_of] at h
    simp [← h]
  | cons r rs ih =>
    intro cs h
    simp only [confidences_of, Option.bind_eq_bind] at h
    cases hm : rowMax r with
    | none => rw [hm] at h; cases h
    | some m =>
      rw [hm] at h
      cases hc : confidences_of rs with
      | none => rw [hc] at h; cases h
      | some rest =>
        rw [hc] at h
        simp only [Option.some_bind, Option.pure_def, Option.some.injEq] at h
        subst h
        obtain ⟨hlen, hget⟩ := ih hc
        refine ⟨by simp [hlen], ?_⟩
        intro i h1 h2
        cases i with
        | zero => simpa using hm
        | succ j =>
          simp only [List.get_cons_succ]
          exact hget j (by simpa using h1) (by simpa using h2)

/-- Inversion of a successful predict_batch run: the scores were built by
the validated result loop from the clipped raw predictions and the
confidence list of the capability branch. -/
lemma predict_batch_ok_elim {cl : CategoryLists} {p : Predictor} {now : ℤ} {t : ℚ}
    {leads : List LeadFeatures} {m : MLModel} {scores : List LeadScore}
    (hm : p.model = some m)
    (hok : predict_batch cl p now t leads = Except.ok scores) :
    ∃ confs : List ℚ,
      ((m.predict_proba = none ∧
         confs = List.replicate
           ((m.predict (prepare_features cl p.feature_columns now leads)).map clip15).length
           MOCK_CONFIDENCE_VALUE) ∨
       (∃ f, m.predict_proba = some f ∧
         confidences_of (f (prepare_features cl p.feature_columns now leads)) = some confs)) ∧
      build_results ((p.feature_columns.map List.length).getD 0)
        (t / (((m.predict (prepare_features cl p.feature_columns now leads)).map clip15).length : ℚ))
        ((m.predict (prepare_features cl p.feature_columns now leads)).map clip15)
        confs = some scores := by
  unfold predict_batch predict_sync at hok
  rw [hm] at hok
  simp only at hok
  cases hp : m.predict_proba with
  | none =>
    rw [hp] at hok
    simp only at hok
    cases hb : build_results ((p.feature_columns.map List.length).getD 0)
        (t / (((m.predict (prepare_features cl p.feature_columns now leads)).map clip15).length : ℚ))
        ((m.predict (prepare_features cl p.feature_columns now leads)).map clip15)
        (List.replicate
          ((m.predict (prepare_features cl p.feature_columns now leads)).map clip15).length
          MOCK_CONFIDENCE_VALUE) with
    | none => rw [hb] at hok; cases hok
    | some r =>
      rw [hb] at hok
      cases hok
      exact ⟨_, Or.inl ⟨rfl, rfl⟩, hb⟩
  | some f =>
    rw [hp] at hok
    simp only at hok
    cases hc : confidences_of (f (prepare_features cl p.feature_columns now leads)) with
    | none => rw [hc] at hok; cases hok
    | some confs =>
      rw [hc] at hok
      simp only at hok
      cases hb : build_results ((p.feature_columns.map List.length).getD 0)
          (t / (((m.predict (prepare_features cl p.feature_columns now leads)).map clip15).length : ℚ))
          ((m.predict (prepare_features cl p.feature_columns now leads)).map clip15)
          confs with
      | none => rw [hb] at hok; cases hok
      | some r =>
        rw [hb] at hok
        cases hok
        exact ⟨confs, Or.inr ⟨f, rfl, hc⟩, hb⟩

lemma list_index_of_not_mem {s : String} :
    ∀ {l : List String}, s ∉ l → list_index l s = none := by
  intro l
  induction l with
  | nil => intro _; rfl
  | cons c cs ih =>
    intro h
    have hne : c ≠ s := fun hc => h (hc ▸ List.mem_cons_self c cs)
    have hns : s ∉ cs := fun hc => h (List.mem_cons_of_mem c hc)
    simp [list_index, hne, ih hns]

lemma list_index_nodup_get :
    ∀ {l : List String}, l.Nodup → ∀ (k : ℕ) (hk : k < l.length),
      list_index l l[k] = some k := by
  intro l
  induction l with
  | nil => intro _ k hk; cases hk
  | cons c cs ih =>
    intro hnd k hk
    cases k with
    | zero => simp [list_index]
    | succ j =>
      have hj : j < cs.length := by simpa using hk
      have hmem : cs[j] ∈ cs := List.getElem_mem hj
      have hne : c ≠ cs[j] := by
        intro hc
        exact (List.nodup_cons.mp hnd).1 (hc ▸ hmem)
      simp [list_index, hne, ih (List.nodup_cons.mp hnd).2 j hj]

/-! The claim theorems. -/

/-- C5 counterexample: the empty string is a present value ("" is not
None), it is not in the known list ["Small"], yet _encode_categorical
encodes it to 0 and not to the unknown-value code len + 1 = 2, because the
Python guard `if not value` tests falsiness instead of presence.  This
refutes the claim clause "a value present but not in the known list
encodes to len(known_list)+1". -/
theorem c5_counterexample :
    (some "" ≠ (none : Option String)) ∧
    "" ∉ (["Small"] : List String) ∧
    encode_categorical (some "") ["Small"] = 0 ∧
    encode_categorical (some "") ["Small"] ≠ (["Small"] : List String).length + 1 := by
  refine ⟨by simp, by simp, rfl, by simp [encode_categorical]⟩

/-- C5 (amended): _encode_categorical is a pure function of
(value, known-list); a present NON-EMPTY value equal to the k-th element
of a duplicate-free known list encodes to k+1, a present non-empty value
not in the known list encodes to len(known_list)+1, and an absent value -
like a present empty string - encodes to 0. -/
theorem c5_categorical_encoding_amended (l : List String) :
    (∀ (k : ℕ) (hk : k < l.length), l.Nodup → l[k] ≠ "" →
      encode_categorical (some l[k]) l = k + 1) ∧
    (∀ s : String, s ≠ "" → s ∉ l →
      encode_categorical (some s) l = l.length + 1) ∧
    encode_categorical none l = 0 ∧
    encode_categorical (some "") l = 0 := by
  refine ⟨?_, ?_, rfl, rfl⟩
  · intro k hk hnd hne
    simp [encode_categorical, hne, list_index_nodup_get hnd k hk]
  · intro s hne hnm
    simp [encode_categorical, hne, list_index_of_not_mem hnm]

/-- C5 witness: the amended theorem applied to the concrete known list
["Startup", "Small"]: "Small" sits at 0-based index 1 and encodes to 2,
"Healthcare" is unknown and encodes to 3, None and "" encode to 0. -/
theorem c5_categorical_encoding_amended_witness :
    ((["Startup", "Small"] : List String).Nodup ∧
     (["Startup", "Small"] : List String)[1] ≠ "" ∧
     encode_categorical (some (["Startup", "Small"] : List String)[1])
       ["Startup", "Small"] = 2) ∧
    ("Healthcare" ≠ "" ∧ "Healthcare" ∉ (["Startup", "Small"] : List String) ∧
     encode_categorical (some "Healthcare") ["Startup", "Small"] = 3) ∧
    encode_categorical none ["Startup", "Small"] = 0 ∧
    encode_categorical (some "") ["Startup", "Small"] = 0 :=
  ⟨⟨by simp, by simp,
    (c5_categorical_encoding_amended ["Startup", "Small"]).1 1 (by simp) (by simp) (by simp)⟩,
   ⟨by simp, by simp,
    (c5_categorical_encoding_amended ["Startup", "Small"]).2.1 "Healthcare" (by simp) (by simp)⟩,
   (c5_categorical_encoding_amended ["Startup", "Small"]).2.2.1,
   (c5_categorical_encoding_amended ["Startup", "Small"]).2.2.2⟩

/-- C10: for every known list, a present empty-string categorical value is
encoded as 0, the same code as an absent value, and never as the
unknown-value code len(known_list)+1, because the encoder guard
`if not value` tests falsiness rather than presence. -/
theorem c10_empty_string_encodes_as_absent (l : List String) :
    encode_categorical (some "") l = 0 ∧
    encode_categorical (some "") l = encode_categorical none l ∧
    encode_categorical (some "") l ≠ l.length + 1 := by
  refine ⟨rfl, rfl, ?_⟩
  simp [encode_categorical]

/-- C7: the derived "days since last interaction" feature of a lead is
max(0, whole days from the interaction timestamp to now) when the
timestamp is present and the fixed sentinel 999 when it is absent, it is
never negative, it depends on no other field of the lead, and it is
exactly the value stored under the "days_since_last_interaction" column of
the prepared feature row. -/
theorem c7_days_since_interaction (cl : CategoryLists) (now : ℤ) (lead lead' : LeadFeatures) :
    (∀ ts, lead.last_campaign_interaction = some ts →
      days_since_feature now lead = max 0 (days_between now ts)) ∧
    (lead.last_campaign_interaction = none →
      days_since_feature now lead = 999) ∧
    0 ≤ days_since_feature now lead ∧
    (lead.last_campaign_interaction = lead'.last_campaign_interaction →
      days_since_feature now lead = days_since_feature now lead') ∧
    lookupD (prepare_row cl now lead) "days_since_last_interaction" 0 =
      ((days_since_feature now lead : ℤ) : ℚ) := by
  refine ⟨?_, ?_, ?_, ?_, ?_⟩
  · intro ts h
    simp [days_since_feature, h]
  · intro h
    simp [days_since_feature, h, DEFAULT_DAYS_SINCE_INTERACTION]
  · unfold days_since_feature
    cases lead.last_campaign_interaction with
    | none => simp [DEFAULT_DAYS_SINCE_INTERACTION]
    | some ts => simp [le_max_left]
  · intro h
    unfold days_since_feature
    rw [h]
  · rfl

/-- C7 witness: a lead whose last interaction was 100000 seconds before
now has the feature max(0, 1) computed from the timestamp, an empty lead
has the sentinel 999, and the feature is the stored row value. -/
theorem c7_days_since_interaction_witness :
    (days_since_feature 100000 { last_campaign_interaction := some 0 } =
      max 0 (days_between 100000 0) ∧
     days_since_feature 100000 { last_campaign_interaction := some 0 } = 1) ∧
    (days_since_feature 100000 ({} : LeadFeatures) = 999) ∧
    0 ≤ days_since_feature 100000 ({} : LeadFeatures) ∧
    lookupD (prepare_row demo_cl 100000 ({} : LeadFeatures)) "days_since_last_interaction" 0 =
      ((days_since_feature 100000 ({} : LeadFeatures) : ℤ) : ℚ) :=
  ⟨⟨(c7_days_since_interaction demo_cl 100000 { last_campaign_interaction := some 0 } {}).1 0 rfl,
    by decide⟩,
   (c7_days_since_interaction demo_cl 100000 {} {}).2.1 rfl,
   (c7_days_since_interaction demo_cl 100000 {} {}).2.2.1,
   (c7_days_since_interaction demo_cl 100000 {} {}).2.2.2.2⟩

/-- C6: a request with 0 leads is rejected by schema validation as a 422
before the endpoint body runs, a request with 501 or more leads is
likewise rejected as a 422 before any encoding or prediction work (the
constant error holds for every predictor state), and a request with 1 to
500 leads passes both the schema bound and the orchestrator's own 400
batch-size check. -/
theorem c6_batch_size_bounds :
    (∀ (cl : CategoryLists) (p : Predictor) (now : ℤ) (t : ℚ) (rid : String)
        (leads : List LeadFeatures), leads.length = 0 →
      handle_score_request cl p now t rid leads =
        Except.error ⟨422, "List should have at least 1 item"⟩) ∧
    (∀ (cl : CategoryLists) (p : Predictor) (now : ℤ) (t : ℚ) (rid : String)
        (leads : List LeadFeatures), 501 ≤ leads.length →
      handle_score_request cl p now t rid leads =
        Except.error ⟨422, "List should have at most 500 items"⟩) ∧
    (∀ (rid : String) (leads : List LeadFeatures),
        1 ≤ leads.length → leads.length ≤ 500 →
      validate_score_request rid leads = Except.ok ⟨rid, leads⟩ ∧
      ∀ (cl : CategoryLists) (p : Predictor) (now : ℤ) (t : ℚ),
        score_leads cl p now t ⟨rid, leads⟩ ≠
          Except.error ⟨400, "Maximum 500 leads per request"⟩) := by
  refine ⟨?_, ?_, ?_⟩
  · intro cl p now t rid leads h
    have h1 : leads.length < 1 := by omega
    simp [handle_score_request, validate_score_request, h1]
  · intro cl p now t rid leads h
    have h1 : ¬ leads.length < 1 := by omega
    have h2 : leads.length > 500 := by omega
    simp [handle_score_request, validate_score_request, h1, h2]
  · intro rid leads hlo hhi
    have h1 : ¬ leads.length < 1 := by omega
    have h2 : ¬ leads.length > 500 := by omega
    refine ⟨by simp [validate_score_request, h1, h2], ?_⟩
    intro cl p now t heq
    unfold score_leads at heq
    cases hl : is_loaded p with
    | false => rw [hl] at heq; simp at heq
    | true =>
      rw [hl] at heq
      simp only [Bool.true_eq_false, if_false] at heq
      rw [if_neg h2] at heq
      cases hb : predict_batch cl p now t leads with
      | ok scores => rw [hb] at heq; simp at heq
      | error e => rw [hb] at heq; simp at heq

/-- C6 witness: the theorem applied to an empty batch, a 501-lead batch
and a single-lead batch. -/
theorem c6_batch_size_bounds_witness :
    handle_score_request demo_cl demo_p 0 0 "r0" [] =
      Except.error ⟨422, "List should have at least 1 item"⟩ ∧
    handle_score_request demo_cl demo_p 0 0 "r5" (List.replicate 501 {}) =
      Except.error ⟨422, "List should have at most 500 items"⟩ ∧
    (validate_score_request "r1" [{}] = Except.ok ⟨"r1", [{}]⟩ ∧
     ∀ (cl : CategoryLists) (p : Predictor) (now : ℤ) (t : ℚ),
       score_leads cl p now t ⟨"r1", [{}]⟩ ≠
         Except.error ⟨400, "Maximum 500 leads per request"⟩) :=
  ⟨c6_batch_size_bounds.1 demo_cl demo_p 0 0 "r0" [] rfl,
   c6_batch_size_bounds.2.1 demo_cl demo_p 0 0 "r5" (List.replicate 501 {})
     (by rw [List.length_replicate]),
   c6_batch_size_bounds.2.2 "r1" [{}] (by simp) (by simp)⟩

/-- C2: every LeadScore a successful batch prediction hands out has an
integer score in the set {1,2,3,4,5} and a confidence in [0,1], for
arbitrary category lists, predictor state, raw model output and clock
values: the clip and the validated LeadScore construction enforce the
bounds, and a row violating them aborts the whole batch instead of being
returned. -/
theorem c2_score_and_confidence_bounds (cl : CategoryLists) (p : Predictor) (now : ℤ)
    (t : ℚ) (leads : List LeadFeatures) (scores : List LeadScore)
    (hok : predict_batch cl p now t leads = Except.ok scores) :
    ∀ s ∈ scores, s.score ∈ ([1, 2, 3, 4, 5] : List ℤ) ∧
      0 ≤ s.confidence ∧ s.confidence ≤ 1 := by
  cases hp : p.model with
  | none =>
    unfold predict_batch predict_sync at hok
    rw [hp] at hok
    simp at hok
  | some m =>
    obtain ⟨confs, -, hb⟩ := predict_batch_ok_elim hp hok
    intro s hs
    obtain ⟨-, hmem⟩ := build_results_spec hb
    obtain ⟨pc, hpc⟩ := hmem s hs
    obtain ⟨hseq, h1, h2, h3, h4⟩ := mkLeadScore_some hpc
    subst hseq
    refine ⟨?_, h3, h4⟩
    simp only [List.mem_cons, List.not_mem_nil, or_false]
    omega

/-- C2 witness: the theorem applied to a concrete run in which the raw
model label 7 is clipped to 5 and the fallback confidence 4/5 is used. -/
theorem c2_score_and_confidence_bounds_witness :
    predict_batch demo_cl demo_p 0 0 demo_req.leads =
      Except.ok [⟨5, 4/5, 2, 0⟩] ∧
    ∀ s ∈ [(⟨5, 4/5, 2, 0⟩ : LeadScore)],
      s.score ∈ ([1, 2, 3, 4, 5] : List ℤ) ∧ 0 ≤ s.confidence ∧ s.confidence ≤ 1 := by
  have hok : predict_batch demo_cl demo_p 0 0 demo_req.leads =
      Except.ok [⟨5, 4/5, 2, 0⟩] := by
    norm_num [predict_batch, prepare_features, encode_lead, select_columns, prepare_row,
      base_row, custom_keys, custom_feature_value, lookupD, days_since_feature,
      encode_categorical, predict_sync, demo_p, demo_fc, demo_model, demo_cl, demo_req,
      clip15, mkLeadScore, build_results, MOCK_CONFIDENCE_VALUE,
      DEFAULT_DAYS_SINCE_INTERACTION, list_index]
  exact ⟨hok, c2_score_and_confidence_bounds demo_cl demo_p 0 0 demo_req.leads _ hok⟩

/-- C4 (code-bug evidence): in this snapshot the caller never receives the
200 at all, so sink outcomes cannot be what decides the response:
predict_batch computes the scores, yet score_leads answers the generic 500
- the scoring.py line 56 unpack failure precedes both the response and the
scheduling of any background task.  Independently, the staged call at
scoring.py lines 71-79 passes six arguments to the five-parameter
write_predictions_async, so its body never runs; the function itself, as
data_lake.py defines it, does absorb a failing configured destination into
the internal boolean signal false without raising. -/
theorem c4_sink_isolation_code_bug :
    predict_batch demo_cl demo_p 0 0 demo_req.leads =
      Except.ok [⟨5, 4/5, 2, 0⟩] ∧
    score_leads demo_cl demo_p 0 0 demo_req =
      Except.error ⟨500, "Internal server error during prediction"⟩ ∧
    env_s3_fail.s3_configured = true ∧
    env_s3_fail.s3_write_ok = false ∧
    write_predictions_async env_s3_fail "r1" demo_req [⟨5, 4/5, 2, 0⟩] = false := by
  have hok : predict_batch demo_cl demo_p 0 0 demo_req.leads =
      Except.ok [⟨5, 4/5, 2, 0⟩] := by
    norm_num [predict_batch, prepare_features, encode_lead, select_columns, prepare_row,
      base_row, custom_keys, custom_feature_value, lookupD, days_since_feature,
      encode_categorical, predict_sync, demo_p, demo_fc, demo_model, demo_cl, demo_req,
      clip15, mkLeadScore, build_results, MOCK_CONFIDENCE_VALUE,
      DEFAULT_DAYS_SINCE_INTERACTION, list_index]
  refine ⟨hok, ?_, rfl, rfl, rfl⟩
  unfold score_leads
  rw [if_neg (show ¬ (is_loaded demo_p = false) by simp [is_loaded, demo_p]),
    if_neg (show ¬ (demo_req.leads.length > 500) by norm_num [demo_req]), hok]
  rfl

/-- C3 counterexample: after a failed artifact load the predictor is NOT
in a not-loaded state: _load_model catches the error and installs the mock
model, so is_loaded is true and the version tag is "mock-1.0.0"; the
subsequent scoring request is then NOT answered with the 503
service-unavailable condition - the mock computes the batch prediction and
the staged endpoint answers the generic 500 of its unpack failure.  This
refutes both "the predictor ends in a not-loaded state" and "scoring
requests are answered with a service-unavailable condition". -/
theorem c3_counterexample :
    is_loaded (load_model (Except.error "S3 download failed") demo_model empty_p) = true ∧
    (load_model (Except.error "S3 download failed") demo_model empty_p).model_version =
      "mock-1.0.0" ∧
    predict_batch demo_cl (load_model (Except.error "S3 download failed") demo_model
      empty_p) 0 0 demo_req.leads = Except.ok [⟨5, 4/5, 50, 0⟩] ∧
    score_leads demo_cl (load_model (Except.error "S3 download failed") demo_model
      empty_p) 0 0 demo_req =
      Except.error ⟨500, "Internal server error during prediction"⟩ := by
  have hok : predict_batch demo_cl (load_model (Except.error "S3 download failed")
      demo_model empty_p) 0 0 demo_req.leads = Except.ok [⟨5, 4/5, 50, 0⟩] := by
    norm_num [load_model, load_mock_model, empty_p, mock_feature_columns, predict_batch,
      prepare_features, encode_lead, select_columns, prepare_row, base_row, custom_keys,
      custom_feature_value, lookupD, days_since_feature, encode_categorical, predict_sync,
      demo_model, demo_cl, demo_req, clip15, mkLeadScore, build_results,
      MOCK_CONFIDENCE_VALUE, DEFAULT_DAYS_SINCE_INTERACTION, list_index]
  refine ⟨rfl, rfl, hok, ?_⟩
  unfold score_leads
  rw [if_neg (show ¬ (is_loaded (load_model (Except.error "S3 download failed")
      demo_model empty_p) = false) by
      simp [is_loaded, load_model, load_mock_model]),
    if_neg (show ¬ (demo_req.leads.length > 500) by norm_num [demo_req]), hok]
  rfl

/-- C3 (amended): when loading the model artifact fails, the predictor
does not end not-loaded: it substitutes the mock model (is_loaded true,
model = the mock, version "mock-1.0.0") and the adapter thereafter
computes predictions from the mock; the 503 service-unavailable answer is
produced exactly when no model at all - real or mock - is present, so a
request against the mock-loaded predictor is never answered 503. -/
theorem c3_load_failure_policy_amended (e : String) (mock : MLModel) (p : Predictor) :
    is_loaded (load_model (Except.error e) mock p) = true ∧
    (load_model (Except.error e) mock p).model = some mock ∧
    (load_model (Except.error e) mock p).model_version = "mock-1.0.0" ∧
    (∀ X, predict_sync (load_model (Except.error e) mock p) X =
      Except.ok ((mock.predict X).map clip15)) ∧
    (∀ (cl : CategoryLists) (q : Predictor) (now : ℤ) (t : ℚ) (req : ScoreRequest),
      is_loaded q = false →
      score_leads cl q now t req =
        Except.error ⟨503, "Model not available. Please try again later."⟩) ∧
    (∀ (cl : CategoryLists) (now : ℤ) (t : ℚ) (req : ScoreRequest),
      score_leads cl (load_model (Except.error e) mock p) now t req ≠
        Except.error ⟨503, "Model not available. Please try again later."⟩) := by
  refine ⟨rfl, rfl, rfl, fun X => rfl, ?_, ?_⟩
  · intro cl q now t req hq
    simp [score_leads, hq]
  · intro cl now t req heq
    unfold score_leads at heq
    rw [if_neg (show ¬ (is_loaded (load_model (Except.error e) mock p) = false) by
      simp [is_loaded, load_model, load_mock_model])] at heq
    split at heq
    · simp at heq
    · cases hb : predict_batch cl (load_model (Except.error e) mock p) now t
          req.leads with
      | ok results => rw [hb] at heq; simp [ite_self] at heq
      | error e2 => rw [hb] at heq; simp at heq

/-- C3 witness: the amended theorem applied to a concrete failed load, to
the concrete not-loaded predictor (answered 503), and to a concrete
request against the mock-loaded predictor (not answered 503). -/
theorem c3_load_failure_policy_amended_witness :
    is_loaded (load_model (Except.error "boom") demo_model empty_p) = true ∧
    predict_sync (load_model (Except.error "boom") demo_model empty_p) [] =
      Except.ok ((demo_model.predict []).map clip15) ∧
    is_loaded empty_p = false ∧
    score_leads demo_cl empty_p 0 0 demo_req =
      Except.error ⟨503, "Model not available. Please try again later."⟩ ∧
    score_leads demo_cl (load_model (Except.error "boom") demo_model empty_p) 0 0
      demo_req ≠
      Except.error ⟨503, "Model not available. Please try again later."⟩ :=
  ⟨(c3_load_failure_policy_amended "boom" demo_model empty_p).1,
   (c3_load_failure_policy_amended "boom" demo_model empty_p).2.2.2.1 [],
   rfl,
   (c3_load_failure_policy_amended "boom" demo_model empty_p).2.2.2.2.1
     demo_cl empty_p 0 0 demo_req rfl,
   (c3_load_failure_policy_amended "boom" demo_model empty_p).2.2.2.2.2
     demo_cl 0 0 demo_req⟩

lemma map_pair_get {scores : List LeadScore} {ps : List ℤ} {cs : List ℚ}
    (h : scores.map (fun s => (s.score, s.confidence)) = ps.zip cs) :
    scores.length = min ps.length cs.length ∧
    ∀ i (hi : i < scores.length) (hp : i < ps.length) (hc : i < cs.length),
      (scores.get ⟨i, hi⟩).score = ps.get ⟨i, hp⟩ ∧
      (scores.get ⟨i, hi⟩).confidence = cs.get ⟨i, hc⟩ := by
  have hlen : scores.length = min ps.length cs.length := by
    have hl := congrArg List.length h
    simpa [List.length_map, List.length_zip] using hl
  refine ⟨hlen, ?_⟩
  intro i hi hp hc
  have h1 : i < (scores.map (fun s => (s.score, s.confidence))).length := by
    simpa using hi
  have h2 := List.get_of_eq h ⟨i, h1⟩
  simp only [List.get_eq_getElem, List.getElem_map, List.getElem_zip, Fin.coe_cast,
    Prod.mk.injEq] at h2
  exact ⟨by simp only [List.get_eq_getElem]; exact h2.1,
         by simp only [List.get_eq_getElem]; exact h2.2⟩

/-- C8: for a successful batch prediction by a loaded model, if the model
exposes per-class probability output then the i-th confidence of the
result is the maximum of the i-th probability row; otherwise every
confidence is the fixed fallback constant MOCK_CONFIDENCE_VALUE = 4/5;
both branches end in the same successful result shape, so the missing
capability is not an error path. -/
theorem c8_confidence_capability (cl : CategoryLists) (p : Predictor) (now : ℤ)
    (t : ℚ) (leads : List LeadFeatures) (m : MLModel) (scores : List LeadScore)
    (hm : p.model = some m)
    (hok : predict_batch cl p now t leads = Except.ok scores) :
    (∀ f, m.predict_proba = some f →
      ∃ confs : List ℚ,
        confidences_of (f (prepare_features cl p.feature_columns now leads)) =
          some confs ∧
        (∀ i (h1 : i < (f (prepare_features cl p.feature_columns now leads)).length)
            (h2 : i < confs.length),
          rowMax ((f (prepare_features cl p.feature_columns now leads)).get ⟨i, h1⟩) =
            some (confs.get ⟨i, h2⟩)) ∧
        (∀ i (hi : i < scores.length) (hc : i < confs.length),
          (scores.get ⟨i, hi⟩).confidence = confs.get ⟨i, hc⟩)) ∧
    (m.predict_proba = none →
      ∀ s ∈ scores, s.confidence = MOCK_CONFIDENCE_VALUE) := by
  obtain ⟨confs, hC, hb⟩ := predict_batch_ok_elim hm hok
  have hzip := (build_results_spec hb).1
  obtain ⟨hlen, hget⟩ := map_pair_get hzip
  constructor
  · intro f hf
    rcases hC with ⟨hn, _⟩ | ⟨f', hf', hcf⟩
    · rw [hn] at hf; cases hf
    · rw [hf'] at hf
      injection hf with hff
      subst hff
      refine ⟨confs, hcf, fun i h1 h2 => (confidences_of_spec hcf).2 i h1 h2, ?_⟩
      intro i hi hc
      have hp : i < ((m.predict (prepare_features cl p.feature_columns now leads)).map
          clip15).length := by
        rw [hlen] at hi
        omega
      exact (hget i hi hp hc).2
  · intro hn s hs
    rcases hC with ⟨-, hrep⟩ | ⟨f', hf', -⟩
    · subst hrep
      obtain ⟨n, hgetn⟩ := List.mem_iff_get.mp hs
      obtain ⟨i, hlt, hgt⟩ :
          ∃ i, ∃ (h : i < scores.length), scores.get ⟨i, h⟩ = s :=
        ⟨n.1, n.2, hgetn⟩
      have hlt' : i < min ((m.predict (prepare_features cl p.feature_columns now
          leads)).map clip15).length
          (List.replicate ((m.predict (prepare_features cl p.feature_columns now
            leads)).map clip15).length MOCK_CONFIDENCE_VALUE).length := hlen ▸ hlt
      have hp : i < ((m.predict (prepare_features cl p.feature_columns now leads)).map
          clip15).length := lt_of_lt_of_le hlt' (min_le_left _ _)
      have hc : i < (List.replicate ((m.predict (prepare_features cl p.feature_columns
          now leads)).map clip15).length MOCK_CONFIDENCE_VALUE).length :=
        lt_of_lt_of_le hlt' (min_le_right _ _)
      have hcg := (hget i hlt hp hc).2
      rw [hgt] at hcg
      rw [hcg]
      simp
    · rw [hn] at hf'; cases hf'

/-- C8 witness: the theorem applied to the probability-capable demo model
(row maxima 9/10 become the confidences) with its hypotheses discharged at
a concrete one-lead run. -/
theorem c8_confidence_capability_witness :
    predict_batch demo_cl demo_p_proba 0 0 demo_req.leads =
      Except.ok [⟨3, 9/10, 2, 0⟩] ∧
    ∃ confs : List ℚ,
      confidences_of ((fun X : List (List ℚ) => X.map (fun _ => [1/10, 9/10]))
        (prepare_features demo_cl demo_p_proba.feature_columns 0 demo_req.leads)) =
        some confs ∧
      (∀ i (h1 : i < ((fun X : List (List ℚ) => X.map (fun _ => [1/10, 9/10]))
            (prepare_features demo_cl demo_p_proba.feature_columns 0 demo_req.leads)).length)
          (h2 : i < confs.length),
        rowMax (((fun X : List (List ℚ) => X.map (fun _ => [1/10, 9/10]))
            (prepare_features demo_cl demo_p_proba.feature_columns 0 demo_req.leads)).get
              ⟨i, h1⟩) = some (confs.get ⟨i, h2⟩)) ∧
      (∀ i (hi : i < ([(⟨3, 9/10, 2, 0⟩ : LeadScore)]).length) (hc : i < confs.length),
        (([(⟨3, 9/10, 2, 0⟩ : LeadScore)]).get ⟨i, hi⟩).confidence = confs.get ⟨i, hc⟩) := by
  have hok : predict_batch demo_cl demo_p_proba 0 0 demo_req.leads =
      Except.ok [⟨3, 9/10, 2, 0⟩] := by
    norm_num [predict_batch, prepare_features, encode_lead, select_columns, prepare_row,
      base_row, custom_keys, custom_feature_value, lookupD, days_since_feature,
      encode_categorical, predict_sync, demo_p_proba, demo_fc, demo_model_proba, demo_cl,
      demo_req, clip15, mkLeadScore, build_results, confidences_of, rowMax,
      MOCK_CONFIDENCE_VALUE, DEFAULT_DAYS_SINCE_INTERACTION, list_index]
  exact ⟨hok,
    (c8_confidence_capability demo_cl demo_p_proba 0 0 demo_req.leads demo_model_proba
      [⟨3, 9/10, 2, 0⟩] rfl hok).1 (fun X => X.map (fun _ => [1/10, 9/10])) rfl⟩

/-- C9 counterexample: the derived days-since-interaction feature is read
from the current clock inside _prepare_features, so for one fixed loaded
deterministic model, two runs of the prediction pipeline on the identical
lead sequence - here one day apart - produce different score sequences:
the feature moves from 0 to 1 and day_model maps the two matrices to the
labels 1 and 2.  This refutes "the per-lead scores and confidences do not
vary run-to-run for fixed model and fixed input". -/
theorem c9_counterexample :
    predict_batch demo_cl day_p 0 0 [day_lead] = Except.ok [⟨1, 4/5, 1, 0⟩] ∧
    predict_batch demo_cl day_p 86400 0 [day_lead] = Except.ok [⟨2, 4/5, 1, 0⟩] ∧
    List.map (fun s => (s.score, s.confidence)) [(⟨1, 4/5, 1, 0⟩ : LeadScore)] ≠
      List.map (fun s => (s.score, s.confidence)) [(⟨2, 4/5, 1, 0⟩ : LeadScore)] := by
  have hd0 : days_since_feature 0 day_lead = 0 := by decide
  have hd1 : days_since_feature 86400 day_lead = 1 := by decide
  simp only [day_lead] at hd0 hd1
  refine ⟨?_, ?_, by simp⟩
  · simp [predict_batch, prepare_features, encode_lead, select_columns, prepare_row,
      base_row, custom_keys, custom_feature_value, lookupD, encode_categorical,
      predict_sync, day_p, day_model, day_lead, demo_cl, clip15, mkLeadScore,
      build_results, MOCK_CONFIDENCE_VALUE, list_index, hd0]
    norm_num
  · simp [predict_batch, prepare_features, encode_lead, select_columns, prepare_row,
      base_row, custom_keys, custom_feature_value, lookupD, encode_categorical,
      predict_sync, day_p, day_model, day_lead, demo_cl, clip15, mkLeadScore,
      build_results, MOCK_CONFIDENCE_VALUE, list_index, hd1]
    norm_num

/-- C9 (amended): for one fixed loaded predictor (its deterministic model
being a pure function) and one fixed clock instant, two successful batch
predictions on the identical lead sequence produce identical score and
confidence sequences, whatever the measured wall-clock processing times;
the request id never enters the prediction path.  The unrestricted
run-to-run form of the claim fails because _prepare_features derives the
days-since-interaction feature from the current clock, so runs at
different instants can score the same leads differently (see the
counterexample). -/
theorem c9_fixed_clock_determinism (cl : CategoryLists) (p : Predictor) (now : ℤ)
    (t t' : ℚ) (leads : List LeadFeatures) (scores scores' : List LeadScore)
    (hok : predict_batch cl p now t leads = Except.ok scores)
    (hok' : predict_batch cl p now t' leads = Except.ok scores') :
    scores.map (fun s => (s.score, s.confidence)) =
      scores'.map (fun s => (s.score, s.confidence)) := by
  cases hp : p.model with
  | none =>
    unfold predict_batch predict_sync at hok
    rw [hp] at hok
    simp at hok
  | some m =>
    obtain ⟨confs, hC, hbr⟩ := predict_batch_ok_elim hp hok
    obtain ⟨confs', hC', hbr'⟩ := predict_batch_ok_elim hp hok'
    have hcc : confs = confs' := by
      rcases hC with ⟨hn, hrep⟩ | ⟨f, hf, hcf⟩
      · rcases hC' with ⟨-, hrep'⟩ | ⟨f, hf', -⟩
        · rw [hrep, hrep']
        · rw [hn] at hf'; cases hf'
      · rcases hC' with ⟨hn', -⟩ | ⟨f', hf', hcf'⟩
        · rw [hn'] at hf; cases hf
        · rw [hf] at hf'
          injection hf' with hff
          subst hff
          rw [hcf] at hcf'
          injection hcf'
    rw [(build_results_spec hbr).1, (build_results_spec hbr').1, hcc]

/-- C9 witness: the amended theorem applied to two concrete runs at the
same clock instant on the same single-lead sequence with different
measured processing times (0 and 1): the per-lead times differ, the
(score, confidence) sequences coincide. -/
theorem c9_fixed_clock_determinism_witness :
    predict_batch demo_cl demo_p 0 0 demo_req.leads = Except.ok [⟨5, 4/5, 2, 0⟩] ∧
    predict_batch demo_cl demo_p 0 1 demo_req.leads = Except.ok [⟨5, 4/5, 2, 1⟩] ∧
    List.map (fun s => (s.score, s.confidence)) [(⟨5, 4/5, 2, 0⟩ : LeadScore)] =
      List.map (fun s => (s.score, s.confidence)) [(⟨5, 4/5, 2, 1⟩ : LeadScore)] := by
  have hok : predict_batch demo_cl demo_p 0 0 demo_req.leads =
      Except.ok [⟨5, 4/5, 2, 0⟩] := by
    norm_num [predict_batch, prepare_features, encode_lead, select_columns, prepare_row,
      base_row, custom_keys, custom_feature_value, lookupD, days_since_feature,
      encode_categorical, predict_sync, demo_p, demo_fc, demo_model, demo_cl, demo_req,
      clip15, mkLeadScore, build_results, MOCK_CONFIDENCE_VALUE,
      DEFAULT_DAYS_SINCE_INTERACTION, list_index]
  have hok' : predict_batch demo_cl demo_p 0 1 demo_req.leads =
      Except.ok [⟨5, 4/5, 2, 1⟩] := by
    norm_num [predict_batch, prepare_features, encode_lead, select_columns, prepare_row,
      base_row, custom_keys, custom_feature_value, lookupD, days_since_feature,
      encode_categorical, predict_sync, demo_p, demo_fc, demo_model, demo_cl, demo_req,
      clip15, mkLeadScore, build_results, MOCK_CONFIDENCE_VALUE,
      DEFAULT_DAYS_SINCE_INTERACTION, list_index]
  exact ⟨hok, hok',
    c9_fixed_clock_determinism demo_cl demo_p 0 0 1 demo_req.leads _ _ hok hok'⟩

/-- C1 (code-bug evidence): in this snapshot score_leads can never return
a ScoreResponse - for every predictor state and request its result has
isOk = false - because the scoring.py line 56 two-target unpack of the
single list that predict_batch returns fails for every batch; at the
concrete valid one-lead request, predict_batch computes the single
positionally corresponding score, yet the endpoint answers the generic
500, never a response whose scores sequence has length N. -/
theorem c1_endpoint_never_returns_scores :
    (∀ (cl : CategoryLists) (p : Predictor) (now : ℤ) (t : ℚ) (req : ScoreRequest),
      (score_leads cl p now t req).isOk = false) ∧
    predict_batch demo_cl demo_p 0 0 demo_req.leads = Except.ok [⟨5, 4/5, 2, 0⟩] ∧
    score_leads demo_cl demo_p 0 0 demo_req =
      Except.error ⟨500, "Internal server error during prediction"⟩ := by
  have hok : predict_batch demo_cl demo_p 0 0 demo_req.leads =
      Except.ok [⟨5, 4/5, 2, 0⟩] := by
    norm_num [predict_batch, prepare_features, encode_lead, select_columns, prepare_row,
      base_row, custom_keys, custom_feature_value, lookupD, days_since_feature,
      encode_categorical, predict_sync, demo_p, demo_fc, demo_model, demo_cl, demo_req,
      clip15, mkLeadScore, build_results, MOCK_CONFIDENCE_VALUE,
      DEFAULT_DAYS_SINCE_INTERACTION, list_index]
  refine ⟨?_, hok, ?_⟩
  · intro cl p now t req
    simp only [score_leads, ite_self]
    split
    · rfl
    · split
      · rfl
      · cases predict_batch cl p now t req.leads <;> rfl
  · unfold score_leads
    rw [if_neg (show ¬ (is_loaded demo_p = false) by simp [is_loaded, demo_p]),
      if_neg (show ¬ (demo_req.leads.length > 500) by norm_num [demo_req]), hok]
    rfl

end LeadScoring
